import Mathlib

/-!
Shallow embedding of the Mini-XML attribute store (`mxml-attr.c`) and node
accessor layer (`mxml-getnode` source) from the
`android_kernel_xiaomi_sm8150-common` Goodix touchscreen test core.

Modelling conventions:
* A C pointer that may be `NULL` becomes `Option _`; a node argument is
  `Option MxmlNode` (`none` = `NULL`).
* The `mxml_value_t` union is modelled as a record carrying every member, so
  a node's `type` tag and union contents are independent, as in C where the
  tree-construction collaborator sets both.
* The dynamic array `attrs` / `num_attrs` is a `List MxmlAttr`; the list's
  length is `num_attrs`, and the empty list stands for the released/absent
  backing array.
* Allocation primitives (`malloc`/`realloc`/`strdup`) are modelled by
  explicit success oracles (`Bool` arguments); `mxml_error` output is
  collected in a list of messages (the external error sink); `free` of a
  transferred value string is recorded in a `valueFreed` flag.
* Weak references (`parent`, `prev`, `next`, `user_data`, custom data) are
  opaque addresses (`Option Nat`), returned verbatim and never dereferenced,
  exactly as the accessors do.  `child` and `last_child` are embedded nodes
  because the scalar getters dereference the first child.
-/

/-- Node type tags (`mxml_type_t`): `MXML_IGNORE` is the sentinel. -/
inductive MxmlType where
  | MXML_IGNORE
  | MXML_ELEMENT
  | MXML_INTEGER
  | MXML_OPAQUE
  | MXML_TEXT
  | MXML_CUSTOM
deriving DecidableEq, Repr

export MxmlType (MXML_IGNORE MXML_ELEMENT MXML_INTEGER MXML_OPAQUE MXML_TEXT MXML_CUSTOM)

/-- One attribute (`mxml_attr_t`): owned name and owned value-or-NULL. -/
structure MxmlAttr where
  name : String
  value : Option String
deriving DecidableEq, Repr

/-- The element member of the value union: name plus attribute array. -/
structure MxmlElement where
  name : String
  attrs : List MxmlAttr
deriving DecidableEq, Repr

/-- The text member of the value union: whitespace flag plus string. -/
structure MxmlText where
  whitespace : Bool
  string : Option String
deriving DecidableEq, Repr

/-- A node (`mxml_node_t`).  The value union is flattened into one field per
member; `parent`/`prev`/`next`/`user_data` and custom data are opaque
addresses; `child`/`last_child` are embedded child nodes. -/
inductive MxmlNode : Type where
  | mk (type : MxmlType) (element : MxmlElement) (integer : Int)
      (opaqueVal : Option String) (text : MxmlText) (customData : Option Nat)
      (parent : Option Nat) (child : Option MxmlNode) (lastChild : Option MxmlNode)
      (prev : Option Nat) (next : Option Nat) (userData : Option Nat) : MxmlNode

def MxmlNode.type : MxmlNode → MxmlType
  | .mk t _ _ _ _ _ _ _ _ _ _ _ => t

def MxmlNode.element : MxmlNode → MxmlElement
  | .mk _ e _ _ _ _ _ _ _ _ _ _ => e

def MxmlNode.integer : MxmlNode → Int
  | .mk _ _ i _ _ _ _ _ _ _ _ _ => i

def MxmlNode.opaqueVal : MxmlNode → Option String
  | .mk _ _ _ o _ _ _ _ _ _ _ _ => o

def MxmlNode.text : MxmlNode → MxmlText
  | .mk _ _ _ _ tx _ _ _ _ _ _ _ => tx

def MxmlNode.customData : MxmlNode → Option Nat
  | .mk _ _ _ _ _ c _ _ _ _ _ _ => c

def MxmlNode.parent : MxmlNode → Option Nat
  | .mk _ _ _ _ _ _ p _ _ _ _ _ => p

def MxmlNode.child : MxmlNode → Option MxmlNode
  | .mk _ _ _ _ _ _ _ ch _ _ _ _ => ch

def MxmlNode.lastChild : MxmlNode → Option MxmlNode
  | .mk _ _ _ _ _ _ _ _ lc _ _ _ => lc

def MxmlNode.prev : MxmlNode → Option Nat
  | .mk _ _ _ _ _ _ _ _ _ pr _ _ => pr

def MxmlNode.next : MxmlNode → Option Nat
  | .mk _ _ _ _ _ _ _ _ _ _ nx _ => nx

def MxmlNode.userData : MxmlNode → Option Nat
  | .mk _ _ _ _ _ _ _ _ _ _ _ u => u

/-- Replace a node's attribute array, keeping every other field. -/
def MxmlNode.setAttrs : MxmlNode → List MxmlAttr → MxmlNode
  | .mk t e i o tx c p ch lc pr nx u, l =>
      .mk t { e with attrs := l } i o tx c p ch lc pr nx u

/-- A fresh element node with the given name, empty attribute set and no
links — the state the tree-construction collaborator hands over. -/
def mkElement (name : String) : MxmlNode :=
  .mk MXML_ELEMENT { name := name, attrs := [] } 0 none
    { whitespace := false, string := none } none none none none none none none

/-! ### Attribute store (`mxml-attr.c`) -/

/-- The scan of `mxml_set_attr`'s first loop / `mxmlElementGetAttr`'s loop:
first attribute whose name matches exactly (`!strcmp`). -/
def findAttr : List MxmlAttr → String → Option MxmlAttr
  | [], _ => none
  | a :: rest, nm => if a.name = nm then some a else findAttr rest nm

/-- The replace branch of `mxml_set_attr`: free the old value and store the
new one in place; `none` when no attribute has the name. -/
def replaceAttr : List MxmlAttr → String → Option String → Option (List MxmlAttr)
  | [], _, _ => none
  | a :: rest, nm, v =>
      if a.name = nm then some ({ name := a.name, value := v } :: rest)
      else
        match replaceAttr rest nm v with
        | some rest2 => some (a :: rest2)
        | none => none

/-- The loop of `mxmlElementDeleteAttr`: frees the first attribute whose name
matches and `memmove`s the later entries one slot forward. -/
def deleteAttrList : List MxmlAttr → String → List MxmlAttr
  | [], _ => []
  | a :: rest, nm => if a.name = nm then rest else a :: deleteAttrList rest nm

/-- The `mxml_error` format string used on allocation failure, instantiated
with the attribute name and the element name. -/
def allocFailMsg (name elemName : String) : String :=
  "Unable to allocate memory for attribute \x27" ++ name ++ "\x27 in element "
    ++ elemName ++ "!"

/-- Outcome of `mxml_set_attr`: resulting attribute array, C return value
(0 success, -1 failure), and messages sent to the error sink. -/
structure SetAttrResult where
  attrs : List MxmlAttr
  ret : Int
  errs : List String
deriving DecidableEq, Repr

/-- `mxml_set_attr(node, name, value)` acting on the element's attribute
array.  `elemName` is `node->value.element.name` (used in error messages);
`allocOk` is the oracle for the `malloc`/`realloc` growing the array,
`dupNameOk` the oracle for `strdup(name)`.  On either failure the visible
store (the first `num_attrs` entries) is unchanged and -1 is returned. -/
def mxml_set_attr (elemName : String) (attrs0 : List MxmlAttr) (name : String)
    (value : Option String) (allocOk dupNameOk : Bool) : SetAttrResult :=
  match replaceAttr attrs0 name value with
  | some attrs1 => ⟨attrs1, 0, []⟩
  | none =>
      if allocOk = false then ⟨attrs0, -1, [allocFailMsg name elemName]⟩
      else if dupNameOk = false then ⟨attrs0, -1, [allocFailMsg name elemName]⟩
      else ⟨attrs0 ++ [⟨name, value⟩], 0, []⟩

/-- Outcome of the public setters: resulting node, error-sink messages, and
whether the transferred value string was freed by the failed call. -/
structure ElementSetOut where
  node : Option MxmlNode
  errs : List String
  valueFreed : Bool

/-- `mxmlElementSetAttr(node, name, value)`.  `dupValOk` is the oracle for
the initial `strdup(value)` (on its failure C silently stores `NULL`);
`allocOk`/`dupNameOk` are passed to `mxml_set_attr`.  When `mxml_set_attr`
returns nonzero the duplicated value is freed. -/
def mxmlElementSetAttr (node : Option MxmlNode) (name value : Option String)
    (dupValOk allocOk dupNameOk : Bool) : ElementSetOut :=
  match node, name with
  | some n, some nm =>
      if n.type = MXML_ELEMENT then
        let valuec : Option String :=
          match value with
          | some v => if dupValOk then some v else none
          | none => none
        let r := mxml_set_attr n.element.name n.element.attrs nm valuec allocOk dupNameOk
        if r.ret = 0 then ⟨some (n.setAttrs r.attrs), r.errs, false⟩
        else ⟨some (n.setAttrs r.attrs), r.errs, true⟩
      else ⟨some n, [], false⟩
  | _, _ => ⟨node, [], false⟩

/-- `mxmlElementSetAttrf(node, name, format, ...)`.  `formatPresent` models
`format != NULL`; `formatted` is the string produced by the external
`_mxml_vstrdupf` collaborator (`none` = formatting/allocation failed, which
is reported and performs no mutation). -/
def mxmlElementSetAttrf (node : Option MxmlNode) (name : Option String)
    (formatPresent : Bool) (formatted : Option String)
    (allocOk dupNameOk : Bool) : ElementSetOut :=
  match node, name with
  | some n, some nm =>
      if n.type = MXML_ELEMENT ∧ formatPresent = true then
        match formatted with
        | none => ⟨some n, [allocFailMsg nm n.element.name], false⟩
        | some v =>
            let r := mxml_set_attr n.element.name n.element.attrs nm (some v) allocOk dupNameOk
            if r.ret = 0 then ⟨some (n.setAttrs r.attrs), r.errs, false⟩
            else ⟨some (n.setAttrs r.attrs), r.errs, true⟩
      else ⟨some n, [], false⟩
  | _, _ => ⟨node, [], false⟩

/-- `mxmlElementDeleteAttr(node, name)`. -/
def mxmlElementDeleteAttr (node : Option MxmlNode) (name : Option String) :
    Option MxmlNode :=
  match node, name with
  | some n, some nm =>
      if n.type = MXML_ELEMENT then some (n.setAttrs (deleteAttrList n.element.attrs nm))
      else some n
  | _, _ => node

/-- `mxmlElementGetAttr(node, name)`: `NULL` unless `node` is an element
and an attribute with exactly that name exists; then that value. -/
def mxmlElementGetAttr (node : Option MxmlNode) (name : Option String) :
    Option String :=
  match node, name with
  | some n, some nm =>
      if n.type = MXML_ELEMENT then
        match findAttr n.element.attrs nm with
        | some a => a.value
        | none => none
      else none
  | _, _ => none

/-- `mxmlElementGetAttrByIndex(node, idx, &name)`: returns the pair
(function result, contents of `*name` after the call), given the contents
`namePrev` of `*name` before the call.  Out of range, `*name` is untouched. -/
def mxmlElementGetAttrByIndex (node : Option MxmlNode) (idx : Int)
    (namePrev : Option String) : Option String × Option String :=
  match node with
  | none => (none, namePrev)
  | some n =>
      if n.type ≠ MXML_ELEMENT ∨ idx < 0 ∨ (n.element.attrs.length : Int) ≤ idx then
        (none, namePrev)
      else
        let a := n.element.attrs.getD idx.toNat ⟨"", none⟩
        (a.value, some a.name)

/-- `mxmlElementGetAttrCount(node)`. -/
def mxmlElementGetAttrCount (node : Option MxmlNode) : Int :=
  match node with
  | some n => if n.type = MXML_ELEMENT then (n.element.attrs.length : Int) else 0
  | none => 0

/-! ### Node accessor layer (node get functions source) -/

/-- The reserved CDATA marker prefix on an element name. -/
def cdataMarker : String := "![CDATA["

/-- `mxmlGetCDATA(node)`: the part of the element name after the 8-byte
`![CDATA[` marker, or `NULL` when the node is not such an element. -/
def mxmlGetCDATA (node : Option MxmlNode) : Option String :=
  match node with
  | none => none
  | some n =>
      if n.type = MXML_ELEMENT ∧ cdataMarker.data.isPrefixOf n.element.name.data then
        some (String.mk (n.element.name.data.drop 8))
      else none

/-- `mxmlGetCustom(node)`: the node's custom data, else the first child's
when the node is an element whose first child is custom, else `NULL`. -/
def mxmlGetCustom (node : Option MxmlNode) : Option Nat :=
  match node with
  | none => none
  | some n =>
      if n.type = MXML_CUSTOM then n.customData
      else
        match n.child with
        | some c =>
            if n.type = MXML_ELEMENT ∧ c.type = MXML_CUSTOM then c.customData
            else none
        | none => none

/-- `mxmlGetElement(node)`: the element name as stored, or `NULL`. -/
def mxmlGetElement (node : Option MxmlNode) : Option String :=
  match node with
  | none => none
  | some n => if n.type = MXML_ELEMENT then some n.element.name else none

/-- `mxmlGetFirstChild(node)`: `node->child` for an element node. -/
def mxmlGetFirstChild (node : Option MxmlNode) : Option MxmlNode :=
  match node with
  | none => none
  | some n => if n.type = MXML_ELEMENT then n.child else none

/-- `mxmlGetInteger(node)`: the node's integer value, else the first
child's when the node is an element whose first child is an integer,
else 0. -/
def mxmlGetInteger (node : Option MxmlNode) : Int :=
  match node with
  | none => 0
  | some n =>
      if n.type = MXML_INTEGER then n.integer
      else
        match n.child with
        | some c =>
            if n.type = MXML_ELEMENT ∧ c.type = MXML_INTEGER then c.integer
            else 0
        | none => 0

/-- `mxmlGetLastChild(node)`: `node->last_child` for an element node. -/
def mxmlGetLastChild (node : Option MxmlNode) : Option MxmlNode :=
  match node with
  | none => none
  | some n => if n.type = MXML_ELEMENT then n.lastChild else none

/-- `mxmlGetNextSibling(node)`: pointer passthrough of `node->next`. -/
def mxmlGetNextSibling (node : Option MxmlNode) : Option Nat :=
  match node with
  | none => none
  | some n => n.next

/-- `mxmlGetOpaque(node)`: the node's opaque string, else the first
child's when the node is an element whose first child is opaque,
else `NULL`. -/
def mxmlGetOpaque (node : Option MxmlNode) : Option String :=
  match node with
  | none => none
  | some n =>
      if n.type = MXML_OPAQUE then n.opaqueVal
      else
        match n.child with
        | some c =>
            if n.type = MXML_ELEMENT ∧ c.type = MXML_OPAQUE then c.opaqueVal
            else none
        | none => none

/-- `mxmlGetParent(node)`: pointer passthrough of `node->parent`. -/
def mxmlGetParent (node : Option MxmlNode) : Option Nat :=
  match node with
  | none => none
  | some n => n.parent

/-- `mxmlGetPrevSibling(node)`: pointer passthrough of `node->prev`. -/
def mxmlGetPrevSibling (node : Option MxmlNode) : Option Nat :=
  match node with
  | none => none
  | some n => n.prev

/-- `mxmlGetText(node, &whitespace)`: returns the pair (text string,
contents of `*whitespace` after the call).  Every branch of the C function
writes `*whitespace` (0 when no text node is resolved). -/
def mxmlGetText (node : Option MxmlNode) : Option String × Bool :=
  match node with
  | none => (none, false)
  | some n =>
      if n.type = MXML_TEXT then (n.text.string, n.text.whitespace)
      else
        match n.child with
        | some c =>
            if n.type = MXML_ELEMENT ∧ c.type = MXML_TEXT then
              (c.text.string, c.text.whitespace)
            else (none, false)
        | none => (none, false)

/-- `mxmlGetType(node)`: `MXML_IGNORE` for `NULL`, else the node's tag. -/
def mxmlGetType (node : Option MxmlNode) : MxmlType :=
  match node with
  | none => MXML_IGNORE
  | some n => n.type

/-- `mxmlGetUserData(node)`: pointer passthrough of `node->user_data`. -/
def mxmlGetUserData (node : Option MxmlNode) : Option Nat :=
  match node with
  | none => none
  | some n => n.userData

/-! ### Sequences of attribute-store mutations (for the uniqueness
invariant) -/

/-- One attribute-store mutation, with its allocation oracles. -/
inductive AttrOp where
  | set (name value : Option String) (dupValOk allocOk dupNameOk : Bool)
  | setf (name : Option String) (formatPresent : Bool) (formatted : Option String)
      (allocOk dupNameOk : Bool)
  | del (name : Option String)

/-- Apply one mutation to a node, keeping only the node. -/
def applyAttrOp (node : Option MxmlNode) : AttrOp → Option MxmlNode
  | .set nm v dv a d => (mxmlElementSetAttr node nm v dv a d).node
  | .setf nm fp f a d => (mxmlElementSetAttrf node nm fp f a d).node
  | .del nm => mxmlElementDeleteAttr node nm

/-- Apply a sequence of mutations in order. -/
def applyAttrOps (node : Option MxmlNode) (ops : List AttrOp) : Option MxmlNode :=
  ops.foldl applyAttrOp node

/-- The attribute names currently stored on a node. -/
def attrNames (node : Option MxmlNode) : List String :=
  match node with
  | some n => if n.type = MXML_ELEMENT then n.element.attrs.map MxmlAttr.name else []
  | none => []

/-! ### Basic lemmas about the embedding -/

theorem MxmlNode.setAttrs_type (n : MxmlNode) (l : List MxmlAttr) :
    (n.setAttrs l).type = n.type := by
  cases n; rfl

theorem MxmlNode.setAttrs_element (n : MxmlNode) (l : List MxmlAttr) :
    (n.setAttrs l).element = { n.element with attrs := l } := by
  cases n; rfl

theorem MxmlNode.setAttrs_self (n : MxmlNode) : n.setAttrs n.element.attrs = n := by
  cases n; rfl

theorem findAttr_eq_none_iff (l : List MxmlAttr) (nm : String) :
    findAttr l nm = none ↔ nm ∉ l.map MxmlAttr.name := by
  induction l with
  | nil => simp [findAttr]
  | cons a rest ih =>
      by_cases h : a.name = nm
      · simp [findAttr, h]
      · simp [findAttr, h, ih, Ne.symm h]

theorem replaceAttr_eq_none_iff (l : List MxmlAttr) (nm : String) (v : Option String) :
    replaceAttr l nm v = none ↔ findAttr l nm = none := by
  induction l with
  | nil => simp [replaceAttr, findAttr]
  | cons a rest ih =>
      by_cases h : a.name = nm
      · simp [replaceAttr, findAttr, h]
      · cases hrec : replaceAttr rest nm v with
        | none => simp [replaceAttr, findAttr, h, hrec, ← ih, hrec]
        | some rest2 => simp [replaceAttr, findAttr, h, hrec, ← ih, hrec]

theorem replaceAttr_map_name (l : List MxmlAttr) (nm : String) (v : Option String)
    (l2 : List MxmlAttr) (h : replaceAttr l nm v = some l2) :
    l2.map MxmlAttr.name = l.map MxmlAttr.name := by
  induction l generalizing l2 with
  | nil => simp [replaceAttr] at h
  | cons a rest ih =>
      by_cases hn : a.name = nm
      · simp [replaceAttr, hn] at h
        simp [← h, hn]
      · cases hrec : replaceAttr rest nm v with
        | none => simp [replaceAttr, hn, hrec] at h
        | some rest2 =>
            simp [replaceAttr, hn, hrec] at h
            simp [← h, ih rest2 hrec]

theorem deleteAttrList_sublist (l : List MxmlAttr) (nm : String) :
    (deleteAttrList l nm).Sublist l := by
  induction l with
  | nil => simp [deleteAttrList]
  | cons a rest ih =>
      by_cases h : a.name = nm
      · simp [deleteAttrList, h]
      · simpa [deleteAttrList, h] using ih.cons₂ a

theorem mxml_set_attr_map_name_nodup (en : String) (l : List MxmlAttr) (nm : String)
    (v : Option String) (a d : Bool) (h : (l.map MxmlAttr.name).Nodup) :
    ((mxml_set_attr en l nm v a d).attrs.map MxmlAttr.name).Nodup := by
  cases hrep : replaceAttr l nm v with
  | some l2 => simpa [mxml_set_attr, hrep, replaceAttr_map_name l nm v l2 hrep] using h
  | none =>
      have hnotin : nm ∉ l.map MxmlAttr.name :=
        (findAttr_eq_none_iff l nm).1 ((replaceAttr_eq_none_iff l nm v).1 hrep)
      cases a with
      | false => simpa [mxml_set_attr, hrep] using h
      | true =>
          cases d with
          | false => simpa [mxml_set_attr, hrep] using h
          | true => simp [mxml_set_attr, hrep, List.nodup_append, h, hnotin]

theorem attrNames_setAttrs (n : MxmlNode) (l : List MxmlAttr)
    (ht : n.type = MXML_ELEMENT) :
    attrNames (some (n.setAttrs l)) = l.map MxmlAttr.name := by
  simp [attrNames, MxmlNode.setAttrs_type, MxmlNode.setAttrs_element, ht]

theorem attrNames_elem (n : MxmlNode) (ht : n.type = MXML_ELEMENT) :
    attrNames (some n) = n.element.attrs.map MxmlAttr.name := by
  simp [attrNames, ht]

theorem attrNames_set_nodup (n : MxmlNode) (nm v : Option String) (dv a d : Bool)
    (h : (attrNames (some n)).Nodup) :
    (attrNames (mxmlElementSetAttr (some n) nm v dv a d).node).Nodup := by
  cases nm with
  | none => simpa [mxmlElementSetAttr] using h
  | some s =>
      by_cases ht : n.type = MXML_ELEMENT
      · simp only [mxmlElementSetAttr, ht, if_true]
        rw [apply_ite ElementSetOut.node]
        simp only [ite_self]
        rw [attrNames_setAttrs _ _ ht]
        exact mxml_set_attr_map_name_nodup _ _ _ _ _ _ ((attrNames_elem n ht) ▸ h)
      · simpa [mxmlElementSetAttr, ht] using h

theorem attrNames_setf_nodup (n : MxmlNode) (nm : Option String) (fp : Bool)
    (f : Option String) (a d : Bool) (h : (attrNames (some n)).Nodup) :
    (attrNames (mxmlElementSetAttrf (some n) nm fp f a d).node).Nodup := by
  cases nm with
  | none => simpa [mxmlElementSetAttrf] using h
  | some s =>
      by_cases hc : n.type = MXML_ELEMENT ∧ fp = true
      · cases f with
        | none => simpa [mxmlElementSetAttrf, hc] using h
        | some v =>
            simp only [mxmlElementSetAttrf, hc, and_self, if_true]
            rw [apply_ite ElementSetOut.node]
            simp only [ite_self]
            rw [attrNames_setAttrs _ _ hc.1]
            exact mxml_set_attr_map_name_nodup _ _ _ _ _ _ ((attrNames_elem n hc.1) ▸ h)
      · simpa [mxmlElementSetAttrf, hc] using h

theorem attrNames_del_nodup (n : MxmlNode) (nm : Option String)
    (h : (attrNames (some n)).Nodup) :
    (attrNames (mxmlElementDeleteAttr (some n) nm)).Nodup := by
  cases nm with
  | none => simpa [mxmlElementDeleteAttr] using h
  | some s =>
      by_cases ht : n.type = MXML_ELEMENT
      · simp only [mxmlElementDeleteAttr, ht, if_true]
        rw [attrNames_setAttrs _ _ ht]
        exact ((deleteAttrList_sublist n.element.attrs s).map MxmlAttr.name).nodup
          ((attrNames_elem n ht) ▸ h)
      · simpa [mxmlElementDeleteAttr, ht] using h

theorem attrNames_nodup_applyAttrOp (node : Option MxmlNode) (op : AttrOp)
    (h : (attrNames node).Nodup) : (attrNames (applyAttrOp node op)).Nodup := by
  cases node with
  | none =>
      cases op with
      | set nm v dv a d => cases nm <;> simp [applyAttrOp, mxmlElementSetAttr, attrNames]
      | setf nm fp f a d => cases nm <;> simp [applyAttrOp, mxmlElementSetAttrf, attrNames]
      | del nm => cases nm <;> simp [applyAttrOp, mxmlElementDeleteAttr, attrNames]
  | some n =>
      cases op with
      | set nm v dv a d => exact attrNames_set_nodup n nm v dv a d h
      | setf nm fp f a d => exact attrNames_setf_nodup n nm fp f a d h
      | del nm => exact attrNames_del_nodup n nm h

theorem attrNames_nodup_applyAttrOps (ops : List AttrOp) (node : Option MxmlNode)
    (h : (attrNames node).Nodup) : (attrNames (applyAttrOps node ops)).Nodup := by
  induction ops generalizing node with
  | nil => exact h
  | cons op rest ih => exact ih _ (attrNames_nodup_applyAttrOp node op h)

/-- C9: starting from a fresh element with an empty attribute set, after any
sequence of `mxmlElementSetAttr`, `mxmlElementSetAttrf` and
`mxmlElementDeleteAttr` calls (each with arbitrary arguments and arbitrary
allocation outcomes), the stored attribute names are pairwise distinct under
case-sensitive exact comparison. -/
theorem C9_attr_names_unique (ops : List AttrOp) (en : String) :
    (attrNames (applyAttrOps (some (mkElement en)) ops)).Nodup := by
  refine attrNames_nodup_applyAttrOps ops _ ?_
  simp [attrNames, mkElement, MxmlNode.type, MxmlNode.element]

/-! ### Claim theorems -/

theorem findAttr_append_last (l : List MxmlAttr) (nm : String) (x : MxmlAttr)
    (h : findAttr l nm = none) (hx : x.name = nm) : findAttr (l ++ [x]) nm = some x := by
  induction l with
  | nil => simp [findAttr, hx]
  | cons a rest ih =>
      by_cases ha : a.name = nm
      · simp [findAttr, ha] at h
      · simp only [List.cons_append, findAttr, ha, if_neg, ite_false]
        exact ih (by simpa [findAttr, ha] using h)

/-- C1: on an element node whose attribute set is empty, setting the same
attribute name twice leaves exactly one attribute whose value is the second
value: the second `mxmlElementSetAttr` replaces the entry in place. -/
theorem C1_setAttr_overwrite (n : MxmlNode) (nm v1 v2 : String)
    (ht : n.type = MXML_ELEMENT) (he : n.element.attrs = []) :
    mxmlElementGetAttrCount
        (mxmlElementSetAttr
          (mxmlElementSetAttr (some n) (some nm) (some v1) true true true).node
          (some nm) (some v2) true true true).node = 1 ∧
    mxmlElementGetAttr
        (mxmlElementSetAttr
          (mxmlElementSetAttr (some n) (some nm) (some v1) true true true).node
          (some nm) (some v2) true true true).node (some nm) = some v2 := by
  constructor <;>
    simp [mxmlElementSetAttr, mxml_set_attr, replaceAttr, findAttr, mxmlElementGetAttr,
      mxmlElementGetAttrCount, MxmlNode.setAttrs_type, MxmlNode.setAttrs_element, ht, he]

theorem C1_setAttr_overwrite_w :
    mxmlElementGetAttrCount
        (mxmlElementSetAttr
          (mxmlElementSetAttr (some (mkElement "e")) (some "a") (some "x") true true true).node
          (some "a") (some "y") true true true).node = 1 ∧
    mxmlElementGetAttr
        (mxmlElementSetAttr
          (mxmlElementSetAttr (some (mkElement "e")) (some "a") (some "x") true true true).node
          (some "a") (some "y") true true true).node (some "a") = some "y" :=
  C1_setAttr_overwrite (mkElement "e") "a" "x" "y" rfl rfl

/-- C4 counterexample: the claim says a zero-length (non-null) name performs
no mutation and `getAttr` with it returns none; but on a fresh element,
`mxmlElementSetAttr` with name `""` appends an entry (the count becomes 1,
not 0) and `mxmlElementGetAttr` with name `""` then returns its value.  The
C guard only rejects a NULL name (`!name`), not an empty one. -/
theorem C4_empty_name_cex :
    mxmlElementGetAttrCount
        (mxmlElementSetAttr (some (mkElement "e")) (some "") (some "v") true true true).node
      = 1 ∧
    mxmlElementGetAttr
        (mxmlElementSetAttr (some (mkElement "e")) (some "") (some "v") true true true).node
        (some "") = some "v" :=
  ⟨rfl, rfl⟩

/-- C4 amended: only a NULL name is rejected: `mxmlElementSetAttr` with a
null name performs no mutation and reports nothing, and
`mxmlElementGetAttr` with a null name returns none; a zero-length (non-null)
name is an ordinary attribute name — setting it mutates the store and
getting it returns the stored value. -/
theorem C4_null_name_guard (node : Option MxmlNode) (n : MxmlNode)
    (v : Option String) (dv a d : Bool) (w : String) :
    (mxmlElementSetAttr (some n) none v dv a d).node = some n ∧
    (mxmlElementSetAttr (some n) none v dv a d).errs = [] ∧
    mxmlElementGetAttr node none = none ∧
    mxmlElementGetAttrCount
        (mxmlElementSetAttr (some (mkElement "e")) (some "") (some w) true true true).node
      = 1 ∧
    mxmlElementGetAttr
        (mxmlElementSetAttr (some (mkElement "e")) (some "") (some w) true true true).node
        (some "") = some w := by
  refine ⟨rfl, rfl, ?_, rfl, rfl⟩
  cases node <;> rfl

/-- C5 counterexample: the claim says an out-of-range
`mxmlElementGetAttrByIndex` sets the name out-parameter to none; but on a
NULL node (out of range per the claim) the C function returns NULL without
writing `*name`, so the out-parameter keeps its prior contents (`"x"` here),
which is not none. -/
theorem C5_name_out_untouched_cex :
    mxmlElementGetAttrByIndex none 0 (some "x") = (none, some "x") ∧
    (mxmlElementGetAttrByIndex none 0 (some "x")).2 ≠ none :=
  ⟨rfl, by decide⟩

/-- C5 amended: for every out-of-range access (NULL node, non-element node,
negative index, or index at least the attribute count)
`mxmlElementGetAttrByIndex` returns none as its value and leaves the name
out-parameter untouched (its prior contents are preserved, it is not set to
none). -/
theorem C5_out_of_range (node : Option MxmlNode) (idx : Int) (p : Option String)
    (h : node = none ∨ ∃ n, node = some n ∧
        (n.type ≠ MXML_ELEMENT ∨ idx < 0 ∨ (n.element.attrs.length : Int) ≤ idx)) :
    mxmlElementGetAttrByIndex node idx p = (none, p) := by
  rcases h with h | ⟨n, rfl, hcond⟩
  · subst h; rfl
  · simp only [mxmlElementGetAttrByIndex]
    rw [if_pos hcond]

theorem C5_out_of_range_w :
    mxmlElementGetAttrByIndex none 0 (some "x") = (none, some "x") :=
  C5_out_of_range none 0 (some "x") (Or.inl rfl)

/-- C8: every accessor applied to a NULL node returns its null/zero
sentinel: none for the pointer- and string-valued getters, 0 for
`mxmlGetInteger`, `MXML_IGNORE` for `mxmlGetType`, and `mxmlGetText`
additionally writes 0 (false) to its whitespace out-parameter. -/
theorem C8_null_getters :
    mxmlGetCDATA none = none ∧ mxmlGetCustom none = none ∧
    mxmlGetElement none = none ∧ mxmlGetInteger none = 0 ∧
    mxmlGetOpaque none = none ∧ mxmlGetText none = (none, false) ∧
    mxmlGetType none = MXML_IGNORE ∧ mxmlGetParent none = none ∧
    mxmlGetNextSibling none = none ∧ mxmlGetPrevSibling none = none ∧
    mxmlGetFirstChild none = none ∧ mxmlGetLastChild none = none ∧
    mxmlGetUserData none = none :=
  ⟨rfl, rfl, rfl, rfl, rfl, rfl, rfl, rfl, rfl, rfl, rfl, rfl, rfl⟩

theorem getD_append_length (l : List MxmlAttr) (x d : MxmlAttr) :
    (l ++ [x]).getD l.length d = x := by
  induction l with
  | nil => rfl
  | cons a rest ih => simp

/-- C10: on an element with no attribute named `nm`, `mxmlElementSetAttr`
with a NULL value appends an entry, so the count grows by one, yet
`mxmlElementGetAttr` for that name still returns none — indistinguishable
from a missing attribute; `mxmlElementGetAttrByIndex` at the new index does
observe it (value none, name `nm`). -/
theorem C10_none_value_append (n : MxmlNode) (nm : String) (p : Option String)
    (ht : n.type = MXML_ELEMENT) (habs : findAttr n.element.attrs nm = none) :
    mxmlElementGetAttrCount
        (mxmlElementSetAttr (some n) (some nm) none true true true).node
      = mxmlElementGetAttrCount (some n) + 1 ∧
    mxmlElementGetAttr
        (mxmlElementSetAttr (some n) (some nm) none true true true).node (some nm)
      = none ∧
    mxmlElementGetAttrByIndex
        (mxmlElementSetAttr (some n) (some nm) none true true true).node
        (n.element.attrs.length : Int) p
      = (none, some nm) := by
  have hrep : replaceAttr n.element.attrs nm none = none :=
    (replaceAttr_eq_none_iff _ _ _).2 habs
  have hset : (mxmlElementSetAttr (some n) (some nm) none true true true).node
      = some (n.setAttrs (n.element.attrs ++ [⟨nm, none⟩])) := by
    simp [mxmlElementSetAttr, mxml_set_attr, hrep, ht]
  refine ⟨?_, ?_, ?_⟩
  · simp [hset, mxmlElementGetAttrCount, MxmlNode.setAttrs_type,
      MxmlNode.setAttrs_element, ht]
  · have hfind : findAttr (n.element.attrs ++ [⟨nm, none⟩]) nm = some ⟨nm, none⟩ :=
      findAttr_append_last n.element.attrs nm ⟨nm, none⟩ habs rfl
    simp [hset, mxmlElementGetAttr, MxmlNode.setAttrs_type,
      MxmlNode.setAttrs_element, ht, hfind]
  · have hcond : ¬((n.setAttrs (n.element.attrs ++ [⟨nm, none⟩])).type ≠ MXML_ELEMENT ∨
        (n.element.attrs.length : Int) < 0 ∨
        (((n.setAttrs (n.element.attrs ++ [⟨nm, none⟩])).element.attrs.length : Int)
          ≤ (n.element.attrs.length : Int))) := by
      simp [MxmlNode.setAttrs_type, MxmlNode.setAttrs_element, ht]
    rw [hset]
    simp only [mxmlElementGetAttrByIndex]
    rw [if_neg hcond]
    simp [MxmlNode.setAttrs_element, Int.toNat_natCast, getD_append_length]

theorem C10_none_value_append_w :
    mxmlElementGetAttrCount
        (mxmlElementSetAttr (some (mkElement "e")) (some "a") none true true true).node
      = mxmlElementGetAttrCount (some (mkElement "e")) + 1 ∧
    mxmlElementGetAttr
        (mxmlElementSetAttr (some (mkElement "e")) (some "a") none true true true).node
        (some "a") = none ∧
    mxmlElementGetAttrByIndex
        (mxmlElementSetAttr (some (mkElement "e")) (some "a") none true true true).node
        ((mkElement "e").element.attrs.length : Int) none
      = (none, some "a") :=
  C10_none_value_append (mkElement "e") "a" none rfl rfl

/-- C3: deleting `"b"` from an element holding attributes `a`, `b`, `c` (in
that order) leaves 2 attributes, with index 0 yielding `a` and index 1
yielding `c`: deletion compacts later entries forward; and deleting the only
remaining attribute of an element leaves the released/absent backing array
(the empty attribute list). -/
theorem C3_delete_compacts (n m : MxmlNode) (v1 v2 v3 p w : Option String)
    (nm : String)
    (ht : n.type = MXML_ELEMENT)
    (ha : n.element.attrs = [⟨"a", v1⟩, ⟨"b", v2⟩, ⟨"c", v3⟩])
    (hmt : m.type = MXML_ELEMENT)
    (hma : m.element.attrs = [⟨nm, w⟩]) :
    mxmlElementGetAttrCount (mxmlElementDeleteAttr (some n) (some "b")) = 2 ∧
    mxmlElementGetAttrByIndex (mxmlElementDeleteAttr (some n) (some "b")) 0 p
      = (v1, some "a") ∧
    mxmlElementGetAttrByIndex (mxmlElementDeleteAttr (some n) (some "b")) 1 p
      = (v3, some "c") ∧
    mxmlElementDeleteAttr (some m) (some nm) = some (m.setAttrs []) := by
  have hdel : mxmlElementDeleteAttr (some n) (some "b")
      = some (n.setAttrs [⟨"a", v1⟩, ⟨"c", v3⟩]) := by
    simp [mxmlElementDeleteAttr, ht, ha, deleteAttrList]
  refine ⟨?_, ?_, ?_, ?_⟩
  · simp [hdel, mxmlElementGetAttrCount, MxmlNode.setAttrs_type,
      MxmlNode.setAttrs_element, ht]
  · simp [hdel, mxmlElementGetAttrByIndex, MxmlNode.setAttrs_type,
      MxmlNode.setAttrs_element, ht, List.getD]
  · simp [hdel, mxmlElementGetAttrByIndex, MxmlNode.setAttrs_type,
      MxmlNode.setAttrs_element, ht, List.getD]
  · simp [mxmlElementDeleteAttr, hmt, hma, deleteAttrList]

theorem C3_delete_compacts_w :
    mxmlElementGetAttrCount
        (mxmlElementDeleteAttr
          (some ((mkElement "e").setAttrs
            [⟨"a", some "1"⟩, ⟨"b", some "2"⟩, ⟨"c", some "3"⟩])) (some "b")) = 2 ∧
    mxmlElementGetAttrByIndex
        (mxmlElementDeleteAttr
          (some ((mkElement "e").setAttrs
            [⟨"a", some "1"⟩, ⟨"b", some "2"⟩, ⟨"c", some "3"⟩])) (some "b")) 0 none
      = (some "1", some "a") ∧
    mxmlElementGetAttrByIndex
        (mxmlElementDeleteAttr
          (some ((mkElement "e").setAttrs
            [⟨"a", some "1"⟩, ⟨"b", some "2"⟩, ⟨"c", some "3"⟩])) (some "b")) 1 none
      = (some "3", some "c") ∧
    mxmlElementDeleteAttr
        (some ((mkElement "e").setAttrs [⟨"x", some "1"⟩])) (some "x")
      = some (((mkElement "e").setAttrs [⟨"x", some "1"⟩]).setAttrs []) :=
  C3_delete_compacts ((mkElement "e").setAttrs [⟨"a", some "1"⟩, ⟨"b", some "2"⟩, ⟨"c", some "3"⟩])
    ((mkElement "e").setAttrs [⟨"x", some "1"⟩])
    (some "1") (some "2") (some "3") none (some "1") "x" rfl rfl rfl rfl

/-- C6: when growing the backing array (`allocOk = false`) or duplicating
the attribute name (`dupNameOk = false`) fails while setting an attribute
that is not yet present, both `mxmlElementSetAttr` and
`mxmlElementSetAttrf` report exactly one error-sink message naming the
attribute and the element, return the node observably unchanged (same count,
same entries), and free the transferred value string instead of storing
it. -/
theorem C6_alloc_failure (n : MxmlNode) (nm v : String) (a d : Bool)
    (ht : n.type = MXML_ELEMENT)
    (habs : findAttr n.element.attrs nm = none)
    (hfail : a = false ∨ d = false) :
    (mxmlElementSetAttr (some n) (some nm) (some v) true a d).node = some n ∧
    (mxmlElementSetAttr (some n) (some nm) (some v) true a d).errs
      = [allocFailMsg nm n.element.name] ∧
    (mxmlElementSetAttr (some n) (some nm) (some v) true a d).valueFreed = true ∧
    (mxmlElementSetAttrf (some n) (some nm) true (some v) a d).node = some n ∧
    (mxmlElementSetAttrf (some n) (some nm) true (some v) a d).errs
      = [allocFailMsg nm n.element.name] ∧
    (mxmlElementSetAttrf (some n) (some nm) true (some v) a d).valueFreed = true ∧
    mxmlElementGetAttrCount
        (mxmlElementSetAttr (some n) (some nm) (some v) true a d).node
      = mxmlElementGetAttrCount (some n) := by
  have hrep : replaceAttr n.element.attrs nm (some v) = none :=
    (replaceAttr_eq_none_iff _ _ _).2 habs
  have hset : mxml_set_attr n.element.name n.element.attrs nm (some v) a d
      = ⟨n.element.attrs, -1, [allocFailMsg nm n.element.name]⟩ := by
    rcases hfail with h | h
    · subst h; simp [mxml_set_attr, hrep]
    · subst h; cases a <;> simp [mxml_set_attr, hrep]
  have h1 : mxmlElementSetAttr (some n) (some nm) (some v) true a d
      = ⟨some n, [allocFailMsg nm n.element.name], true⟩ := by
    simp [mxmlElementSetAttr, ht, hset, MxmlNode.setAttrs_self]
  have h2 : mxmlElementSetAttrf (some n) (some nm) true (some v) a d
      = ⟨some n, [allocFailMsg nm n.element.name], true⟩ := by
    simp [mxmlElementSetAttrf, ht, hset, MxmlNode.setAttrs_self]
  simp [h1, h2]

theorem C6_alloc_failure_w :
    (mxmlElementSetAttr (some (mkElement "e")) (some "a") (some "x") true false true).node
      = some (mkElement "e") ∧
    (mxmlElementSetAttr (some (mkElement "e")) (some "a") (some "x") true false true).errs
      = [allocFailMsg "a" (mkElement "e").element.name] ∧
    (mxmlElementSetAttr (some (mkElement "e")) (some "a") (some "x") true false true).valueFreed
      = true ∧
    (mxmlElementSetAttrf (some (mkElement "e")) (some "a") true (some "x") false true).node
      = some (mkElement "e") ∧
    (mxmlElementSetAttrf (some (mkElement "e")) (some "a") true (some "x") false true).errs
      = [allocFailMsg "a" (mkElement "e").element.name] ∧
    (mxmlElementSetAttrf (some (mkElement "e")) (some "a") true (some "x") false true).valueFreed
      = true ∧
    mxmlElementGetAttrCount
        (mxmlElementSetAttr (some (mkElement "e")) (some "a") (some "x") true false true).node
      = mxmlElementGetAttrCount (some (mkElement "e")) :=
  C6_alloc_failure (mkElement "e") "a" "x" false true rfl rfl (Or.inl rfl)

/-- Replace a node's first-child link, keeping every other field. -/
def MxmlNode.setChild : MxmlNode → Option MxmlNode → MxmlNode
  | .mk t e i o tx c p _ lc pr nx u, ch => .mk t e i o tx c p ch lc pr nx u

/-- C7: `mxmlGetCDATA` answers only on an element whose name begins with the
`![CDATA[` marker, returning the remainder of the name after the 8-character
marker; every non-element and every element without the marker yields none;
the result never depends on a child; and on the same CDATA-marked element
`mxmlGetElement` returns the stored name verbatim, marker included. -/
theorem C7_cdata_accessors :
    (∀ n : MxmlNode, n.type = MXML_ELEMENT →
        cdataMarker.data.isPrefixOf n.element.name.data = true →
        mxmlGetCDATA (some n) = some (String.mk (n.element.name.data.drop 8))) ∧
    (∀ n : MxmlNode, n.type ≠ MXML_ELEMENT → mxmlGetCDATA (some n) = none) ∧
    (∀ n : MxmlNode, cdataMarker.data.isPrefixOf n.element.name.data = false →
        mxmlGetCDATA (some n) = none) ∧
    (∀ n : MxmlNode, ∀ ch : Option MxmlNode,
        mxmlGetCDATA (some (n.setChild ch)) = mxmlGetCDATA (some n)) ∧
    mxmlGetCDATA none = none ∧
    (∀ n : MxmlNode, n.type = MXML_ELEMENT →
        mxmlGetElement (some n) = some n.element.name) := by
  refine ⟨?_, ?_, ?_, ?_, rfl, ?_⟩
  · intro n h1 h2; simp [mxmlGetCDATA, h1, h2]
  · intro n h1; simp [mxmlGetCDATA, h1]
  · intro n h1; simp [mxmlGetCDATA, h1]
  · intro n ch; cases n; rfl
  · intro n h1; simp [mxmlGetElement, h1]

theorem C7_cdata_accessors_w :
    mxmlGetCDATA (some (mkElement "![CDATA[hi"))
      = some (String.mk ((mkElement "![CDATA[hi").element.name.data.drop 8)) ∧
    mxmlGetElement (some (mkElement "![CDATA[hi"))
      = some (mkElement "![CDATA[hi").element.name :=
  ⟨C7_cdata_accessors.1 (mkElement "![CDATA[hi") rfl (by decide),
   C7_cdata_accessors.2.2.2.2.2 (mkElement "![CDATA[hi") rfl⟩

/-- An element node named `"e"` whose only child is `c`. -/
def wrapElement (c : MxmlNode) : MxmlNode :=
  .mk MXML_ELEMENT { name := "e", attrs := [] } 0 none
    { whitespace := false, string := none } none none (some c) (some c) none none none

/-- An integer node carrying `i`. -/
def intNode (i : Int) : MxmlNode :=
  .mk MXML_INTEGER { name := "", attrs := [] } i none
    { whitespace := false, string := none } none none none none none none none

/-- C2: each scalar getter returns the node's own tagged value when the node
carries the requested type, else the first child's value when the node is an
element whose first child carries it, else the sentinel (0 or none); the
resolution never recurses past the first child — an element whose only child
is an element wrapping an integer grandchild yields 0 from
`mxmlGetInteger`. -/
theorem C2_scalar_getters :
    (∀ n : MxmlNode, n.type = MXML_INTEGER → mxmlGetInteger (some n) = n.integer) ∧
    (∀ n c : MxmlNode, n.type = MXML_ELEMENT → n.child = some c →
        c.type = MXML_INTEGER → mxmlGetInteger (some n) = c.integer) ∧
    (∀ n : MxmlNode, n.type ≠ MXML_INTEGER →
        ¬(n.type = MXML_ELEMENT ∧ ∃ c, n.child = some c ∧ c.type = MXML_INTEGER) →
        mxmlGetInteger (some n) = 0) ∧
    (∀ n : MxmlNode, n.type = MXML_OPAQUE → mxmlGetOpaque (some n) = n.opaqueVal) ∧
    (∀ n c : MxmlNode, n.type = MXML_ELEMENT → n.child = some c →
        c.type = MXML_OPAQUE → mxmlGetOpaque (some n) = c.opaqueVal) ∧
    (∀ n : MxmlNode, n.type ≠ MXML_OPAQUE →
        ¬(n.type = MXML_ELEMENT ∧ ∃ c, n.child = some c ∧ c.type = MXML_OPAQUE) →
        mxmlGetOpaque (some n) = none) ∧
    (∀ n : MxmlNode, n.type = MXML_CUSTOM → mxmlGetCustom (some n) = n.customData) ∧
    (∀ n c : MxmlNode, n.type = MXML_ELEMENT → n.child = some c →
        c.type = MXML_CUSTOM → mxmlGetCustom (some n) = c.customData) ∧
    (∀ n : MxmlNode, n.type ≠ MXML_CUSTOM →
        ¬(n.type = MXML_ELEMENT ∧ ∃ c, n.child = some c ∧ c.type = MXML_CUSTOM) →
        mxmlGetCustom (some n) = none) ∧
    (∀ n : MxmlNode, n.type = MXML_TEXT →
        mxmlGetText (some n) = (n.text.string, n.text.whitespace)) ∧
    (∀ n c : MxmlNode, n.type = MXML_ELEMENT → n.child = some c →
        c.type = MXML_TEXT → mxmlGetText (some n) = (c.text.string, c.text.whitespace)) ∧
    (∀ n : MxmlNode, n.type ≠ MXML_TEXT →
        ¬(n.type = MXML_ELEMENT ∧ ∃ c, n.child = some c ∧ c.type = MXML_TEXT) →
        mxmlGetText (some n) = (none, false)) ∧
    (∀ g : MxmlNode, g.type = MXML_INTEGER →
        mxmlGetInteger (some (wrapElement (wrapElement g))) = 0) := by
  refine ⟨?_, ?_, ?_, ?_, ?_, ?_, ?_, ?_, ?_, ?_, ?_, ?_, ?_⟩
  · intro n h1; simp [mxmlGetInteger, h1]
  · intro n c h1 h2 h3; simp [mxmlGetInteger, h1, h2, h3]
  · intro n h1 h2
    cases hc : n.child with
    | none => simp [mxmlGetInteger, h1, hc]
    | some c =>
        have hnc : ¬(n.type = MXML_ELEMENT ∧ c.type = MXML_INTEGER) := fun hx =>
          h2 ⟨hx.1, c, hc, hx.2⟩
        simp [mxmlGetInteger, h1, hc, hnc]
  · intro n h1; simp [mxmlGetOpaque, h1]
  · intro n c h1 h2 h3; simp [mxmlGetOpaque, h1, h2, h3]
  · intro n h1 h2
    cases hc : n.child with
    | none => simp [mxmlGetOpaque, h1, hc]
    | some c =>
        have hnc : ¬(n.type = MXML_ELEMENT ∧ c.type = MXML_OPAQUE) := fun hx =>
          h2 ⟨hx.1, c, hc, hx.2⟩
        simp [mxmlGetOpaque, h1, hc, hnc]
  · intro n h1; simp [mxmlGetCustom, h1]
  · intro n c h1 h2 h3; simp [mxmlGetCustom, h1, h2, h3]
  · intro n h1 h2
    cases hc : n.child with
    | none => simp [mxmlGetCustom, h1, hc]
    | some c =>
        have hnc : ¬(n.type = MXML_ELEMENT ∧ c.type = MXML_CUSTOM) := fun hx =>
          h2 ⟨hx.1, c, hc, hx.2⟩
        simp [mxmlGetCustom, h1, hc, hnc]
  · intro n h1; simp [mxmlGetText, h1]
  · intro n c h1 h2 h3; simp [mxmlGetText, h1, h2, h3]
  · intro n h1 h2
    cases hc : n.child with
    | none => simp [mxmlGetText, h1, hc]
    | some c =>
        have hnc : ¬(n.type = MXML_ELEMENT ∧ c.type = MXML_TEXT) := fun hx =>
          h2 ⟨hx.1, c, hc, hx.2⟩
        simp [mxmlGetText, h1, hc, hnc]
  · intro g hg; rfl

theorem C2_scalar_getters_w :
    mxmlGetInteger (some (intNode 42)) = (intNode 42).integer ∧
    mxmlGetInteger (some (wrapElement (intNode 42))) = (intNode 42).integer ∧
    mxmlGetInteger (some (wrapElement (wrapElement (intNode 42)))) = 0 :=
  ⟨C2_scalar_getters.1 (intNode 42) rfl,
   C2_scalar_getters.2.1 (wrapElement (intNode 42)) (intNode 42) rfl rfl rfl,
   C2_scalar_getters.2.2.2.2.2.2.2.2.2.2.2.2 (intNode 42) rfl⟩
